import Mathlib

/-!
# Verification of the movie rating analyzer pipeline

A shallow embedding of the data pipeline in MOVIERATINGANALYZER.py
(pandas based).  An input CSV cell is modelled as an optional string
(a missing cell is what pandas reads as NaN; pandas by default already
maps the usual NA spellings such as the empty cell or N/A to NaN, and
to_numeric later maps every non-numeric string to NaN as well, so both
roads end in the same place).  Numeric values are modelled as exact
rationals; the claims checked here are order- and structure-level
properties that do not depend on binary floating point rounding, and
the numeric literals exercised are small decimal literals.

Modelling notes, each traceable to the source:
* astype(str) on a missing value produces the literal string "nan"
  (pandas semantics of str(NaN)); pyStr below.
* to_numeric(errors="coerce") is modelled on the finite decimal
  fragment of Python float syntax: optional sign, digits with an
  optional single decimal point, an optional decimal exponent; the nan
  spellings parse to NaN and so end as missing, like every unparsable
  string.  The infinity spellings, which to_numeric reads as a signed
  infinity, are detected separately (isInf below) because they have no
  rational value; they matter only on the Year path, where the Int64
  cast raises on them.  An infinite Rating (kept by the program and
  clipped to the bound) lies outside the modelled finite fragment.
* astype("Int64") on a float column uses safe casting: it raises
  unless every present value is finite, integral and within the int64
  range; load_and_clean below therefore returns Except and errs
  exactly when some parsed Year fails one of those three tests.  The
  distinct pandas messages for the failure modes are collapsed into
  one error string.  The range test compares the exact decimal value,
  while the program compares the nearest float64; the two can differ
  only within one float ulp of the int64 boundary.
* dropna(subset=["Title", "Genre", "Rating", "Year"]) runs after the
  astype(str) step, so the Title and Genre columns hold plain strings
  and can never be NA there; only Rating and Year can actually drop a
  row.  The model reflects this: dropnaRow checks the two optionals.
* DataFrame.sort_values goes through pandas nargsort: an ascending
  argsort of the key column; for descending order nargsort reverses
  the values and their indices before the argsort and reverses the
  resulting indexer after it, so that with a stable kernel sort the
  descending sort is stable as well (ties keep original input order).
  The kernel is modelled as a stable insertion sort, which is exactly
  numpy's default quicksort below its 16-element partitioning
  threshold; above it numpy leaves tie order unspecified and the model
  fixes it to the stable outcome.
* groupby(sort=True) emits one group per distinct key, keys in
  ascending order.
* Chart rendering (the png side effects) is out of scope; the chart
  functions are modelled by the aggregate tables they return.
-/

/-- Python str.split(",") on the underlying character list: cut at every
comma, keeping empty pieces. -/
def splitCommaAux : List Char → List Char → List String
  | [], acc => [⟨acc.reverse⟩]
  | c :: cs, acc =>
    if c = ',' then ⟨acc.reverse⟩ :: splitCommaAux cs []
    else splitCommaAux cs (c :: acc)

/-- Python str.split(",") on a string. -/
def splitComma (s : String) : List String :=
  splitCommaAux s.data []

/-- Remove leading and trailing whitespace from a character list. -/
def stripChars (cs : List Char) : List Char :=
  ((cs.dropWhile Char.isWhitespace).reverse.dropWhile Char.isWhitespace).reverse

/-- Python str.strip(): remove surrounding whitespace. -/
def pyStrip (s : String) : String :=
  ⟨stripChars s.data⟩

/-- Value of the decimal digit list, most significant first. -/
def natOfDigits (ds : List Char) : Nat :=
  ds.foldl (fun n c => 10 * n + (c.toNat - 48)) 0

/-- Apply an optional trailing decimal exponent (lower or upper case e
with an optional sign and at least one digit) to a parsed mantissa;
any other trailing text makes the literal unparsable. -/
def applyExp (m : Rat) (cs : List Char) : Option Rat :=
  match cs with
  | [] => some m
  | e :: rest =>
    if e = 'e' ∨ e = 'E' then
      match rest with
      | '-' :: ds =>
        if ds ≠ [] ∧ ds.all Char.isDigit then
          some (m / (10 : Rat) ^ natOfDigits ds)
        else none
      | '+' :: ds =>
        if ds ≠ [] ∧ ds.all Char.isDigit then
          some (m * (10 : Rat) ^ natOfDigits ds)
        else none
      | ds =>
        if ds ≠ [] ∧ ds.all Char.isDigit then
          some (m * (10 : Rat) ^ natOfDigits ds)
        else none
    else none

/-- Parse an unsigned finite float literal (digits with an optional
single decimal point, at least one digit, then an optional decimal
exponent) as an exact rational. -/
def parseUnsigned (cs : List Char) : Option Rat :=
  let intPart := cs.takeWhile Char.isDigit
  match cs.dropWhile Char.isDigit with
  | '.' :: rest2 =>
    let frac := rest2.takeWhile Char.isDigit
    if intPart.isEmpty ∧ frac.isEmpty then none
    else
      applyExp ((natOfDigits intPart : Rat) +
        (natOfDigits frac : Rat) / (10 : Rat) ^ frac.length)
        (rest2.dropWhile Char.isDigit)
  | rest =>
    if intPart.isEmpty then none
    else applyExp (natOfDigits intPart : Rat) rest

/-- pd.to_numeric(errors="coerce") on one cell string, restricted to
finite values: surrounding whitespace is ignored, an optional sign
precedes the literal; unparsable strings (and the nan spellings, which
parse to NaN) become missing.  The infinity spellings are detected by
isInf instead, having no rational value. -/
def toNumeric (s : String) : Option Rat :=
  match stripChars s.data with
  | '-' :: cs => (parseUnsigned cs).map (fun q => -q)
  | '+' :: cs => parseUnsigned cs
  | cs => parseUnsigned cs

/-- The case-insensitive infinity spellings Python float parsing (and
hence pd.to_numeric) accepts: an optional sign then inf or infinity,
after surrounding whitespace is removed. -/
def isInf (s : String) : Bool :=
  let cs := (stripChars s.data).map Char.toLower
  let body := match cs with
    | '-' :: rest => rest
    | '+' :: rest => rest
    | rest => rest
  body == ['i', 'n', 'f'] || body == ['i', 'n', 'f', 'i', 'n', 'i', 't', 'y']

/-- Smallest int64 value, the lower bound of the safe Int64 cast. -/
def int64Min : Int := -(2 ^ 63)

/-- Largest int64 value, the upper bound of the safe Int64 cast. -/
def int64Max : Int := 2 ^ 63 - 1

/-- One raw CSV row, already split into the four canonical columns
(headers normalized and non-canonical columns dropped); a cell is
missing when pandas read it as NaN. -/
structure RawRow where
  title : Option String
  genre : Option String
  rating : Option String
  year : Option String
deriving DecidableEq, Repr

/-- One row of the cleaned Movie Table. -/
structure MovieRow where
  title : String
  genre : String
  rating : Rat
  year : Int
deriving DecidableEq, Repr

/-- Intermediate row after the astype(str)/to_numeric column passes of
load_and_clean, before the Int64 cast and dropna.  yearInf records
whether the Year cell parsed to a signed infinity, the one to_numeric
outcome with no rational value; it exists to feed the Int64 cast. -/
structure ParsedRow where
  title : String
  genre : String
  rating : Option Rat
  yearNum : Option Rat
  yearInf : Bool
deriving DecidableEq, Repr

/-- astype(str) on one cell: a missing value prints as the literal
string "nan". -/
def pyStr : Option String → String
  | none => "nan"
  | some s => s

/-- The per-row effect of the column passes of load_and_clean:
astype(str).str.strip() on Title and Genre, to_numeric coercion on
Rating and Year. -/
def parseRow (r : RawRow) : ParsedRow :=
  { title := pyStrip (pyStr r.title)
    genre := pyStrip (pyStr r.genre)
    rating := r.rating.bind toNumeric
    yearNum := r.year.bind toNumeric
    yearInf := (r.year.map isInf).getD false }

/-- astype("Int64") safe casting accepts a parsed Year cell when it is
absent (NaN) or a finite integral value within the int64 range; an
infinity, a fractional value or an out-of-range value makes the cast
raise. -/
def yearCastOk (p : ParsedRow) : Bool :=
  !p.yearInf && p.yearNum.all (fun q =>
    q.den == 1 && decide (int64Min ≤ q.num) && decide (q.num ≤ int64Max))

/-- dropna(subset=["Title", "Genre", "Rating", "Year"]) on one row,
fused with the preceding Int64 cast of Year: Title and Genre are plain
strings at this point and never NA, so the row survives exactly when
Rating and Year are present. -/
def dropnaRow (p : ParsedRow) : Option MovieRow :=
  match p.rating, p.yearNum with
  | some r, some y => some ⟨p.title, p.genre, r, y.num⟩
  | _, _ => none

/-- Series.clip(0, 10) on one value. -/
def clip01 (q : Rat) : Rat :=
  min (max q 0) 10

/-- load_and_clean: per-column coercions, the column-wide Int64 cast of
Year (which raises on a fractional value), dropna, then clip. -/
def load_and_clean (rows : List RawRow) : Except String (List MovieRow) :=
  let parsed := rows.map parseRow
  if parsed.all yearCastOk then
    .ok (((parsed.filterMap dropnaRow).map
      (fun m => { m with rating := clip01 m.rating })))
  else
    .error "cannot safely cast non-equivalent float64 to int64"

/-- The whole per-row effect of load_and_clean on a surviving row. -/
def cleanRow (r : RawRow) : Option MovieRow :=
  (dropnaRow (parseRow r)).map (fun m => { m with rating := clip01 m.rating })

/-- One row of the exploded (movie, genre) table. -/
structure ExpRow where
  title : String
  genre : String
  rating : Rat
  year : Int
deriving DecidableEq, Repr

/-- The genre tokens of one record: split on the comma, trim each
token, discard tokens that are empty after trimming. -/
def splitGenres (g : String) : List String :=
  ((splitComma g).map pyStrip).filter (fun t => t ≠ "")

/-- explode_genres: str.split(",") then explode then str.strip() then
the filter against the empty token, fused row-wise. -/
def explode_genres (t : List MovieRow) : List ExpRow :=
  (t.map (fun m => (splitGenres m.genre).map
    (fun g => ExpRow.mk m.title g m.rating m.year))).flatten

deriving instance DecidableEq for Except

/-- Comparison of rows by a sort key. -/
def keyLE {α β : Type} [LinearOrder β] (key : α → β) : α → α → Prop :=
  fun a b => key a ≤ key b

instance {α β : Type} [LinearOrder β] (key : α → β) : DecidableRel (keyLE key) :=
  fun a b => inferInstanceAs (Decidable (key a ≤ key b))

instance {α β : Type} [LinearOrder β] (key : α → β) : IsTotal α (keyLE key) :=
  ⟨fun a b => le_total (key a) (key b)⟩

instance {α β : Type} [LinearOrder β] (key : α → β) : IsTrans α (keyLE key) :=
  ⟨fun _ _ _ h h2 => le_trans h h2⟩

/-- DataFrame.sort_values(by=key): an argsort of the key column.  The
default numpy quicksort degenerates to a stable insertion sort on the
array sizes exercised here, modelled by List.insertionSort. -/
def sort_values_asc {α β : Type} [LinearOrder β] (key : α → β) (l : List α) : List α :=
  List.insertionSort (keyLE key) l

/-- DataFrame.sort_values(by=key, ascending=False): pandas nargsort
reverses the values together with their indices, argsorts ascending,
and reverses the resulting indexer, so with the stable kernel the
descending sort keeps equal keys in their original input order. -/
def sort_values_desc {α β : Type} [LinearOrder β] (key : α → β) (l : List α) : List α :=
  (sort_values_asc key l.reverse).reverse

/-- Arithmetic mean of a list of rationals (sum over size, what
groupby(...).mean() computes per group). -/
def meanRat (l : List Rat) : Rat :=
  l.sum / (l.length : Rat)

/-- The Rating column of the group of exploded records carrying one
genre label. -/
def ratingsOf (exp : List ExpRow) (g : String) : List Rat :=
  (exp.filter (fun e => e.genre == g)).map (fun e => e.rating)

/-- The code-point sequence of a string: the lexicographic order on
these lists is the string order Python and pandas sort keys by. -/
def strKey (s : String) : List Nat :=
  s.data.map Char.toNat

/-- chart_avg_rating_by_genre, modelled by the aggregate it returns:
groupby("Genre") with its ascending key order, mean Rating per group,
then sort_values("Rating", ascending=False).  The png side effect is
out of scope. -/
def chart_avg_rating_by_genre (exp : List ExpRow) : List (String × Rat) :=
  sort_values_desc Prod.snd
    ((sort_values_asc strKey (exp.map (fun e => e.genre)).dedup).map
      (fun g => (g, meanRat (ratingsOf exp g))))

/-- chart_movies_per_year, modelled by the aggregate it returns:
groupby("Year").size() with its ascending key order, then
sort_values("Year").  The png side effect is out of scope. -/
def chart_movies_per_year (t : List MovieRow) : List (Int × Nat) :=
  sort_values_asc Prod.fst
    ((sort_values_asc id (t.map (fun m => m.year)).dedup).map
      (fun y => (y, t.countP (fun m => m.year == y))))

/-- The Top-N statement of main:
sort_values("Rating", ascending=False).head(5)[["Title", "Rating", "Year"]]. -/
def top5 (t : List MovieRow) : List (String × Rat × Int) :=
  ((sort_values_desc (fun m => m.rating) t).take 5).map
    (fun m => (m.title, m.rating, m.year))

/-- The fixed sample table written by ensure_dataset, as the raw cells
a re-read of the written CSV yields. -/
def sample_rows : List RawRow :=
  [⟨some "Inception", some "Sci-Fi", some "8.8", some "2010"⟩,
   ⟨some "Titanic", some "Romance, Drama", some "7.8", some "1997"⟩,
   ⟨some "Interstellar", some "Sci-Fi, Drama", some "8.6", some "2014"⟩,
   ⟨some "The Dark Knight", some "Action, Crime", some "9.0", some "2008"⟩,
   ⟨some "Avengers: Endgame", some "Action, Superhero", some "8.4", some "2019"⟩,
   ⟨some "La La Land", some "Romance, Musical", some "8.0", some "2016"⟩,
   ⟨some "Parasite", some "Thriller, Drama", some "8.6", some "2019"⟩,
   ⟨some "Mad Max: Fury Road", some "Action, Adventure", some "8.1", some "2015"⟩,
   ⟨some "The Godfather", some "Crime, Drama", some "9.2", some "1972"⟩,
   ⟨some "Toy Story 3", some "Animation, Family", some "8.3", some "2010"⟩,
   ⟨some "Whiplash", some "Drama, Music", some "8.5", some "2014"⟩,
   ⟨some "Coco", some "Animation, Family", some "8.4", some "2017"⟩,
   ⟨some "Dangal", some "Drama, Sport", some "8.4", some "2016"⟩,
   ⟨some "3 Idiots", some "Comedy, Drama", some "8.4", some "2009"⟩,
   ⟨some "Joker", some "Crime, Drama", some "8.5", some "2019"⟩,
   ⟨some "The Shawshank Redemption", some "Drama", some "9.3", some "1994"⟩,
   ⟨some "Forrest Gump", some "Drama, Romance", some "8.8", some "1994"⟩,
   ⟨some "RRR", some "Action, Drama", some "8.0", some "2022"⟩,
   ⟨some "K.G.F: Chapter 2", some "Action, Crime", some "8.2", some "2022"⟩,
   ⟨some "The Avengers", some "Action, Superhero", some "8.0", some "2012"⟩]

/-- ensure_dataset over the content of the input path: an existing
file is left untouched, an absent one is filled with the sample
table. -/
def ensure_dataset (file : Option (List RawRow)) : Option (List RawRow) :=
  match file with
  | some t => some t
  | none => some sample_rows

/-- The files the pipeline touches: the input CSV and the four output
CSV tables, each either absent or holding its parsed table.  The two
chart images are out of scope. -/
structure FS where
  movies : Option (List RawRow)
  details : Option (List MovieRow)
  genreAvg : Option (List (String × Rat))
  topTable : Option (List (String × Rat × Int))
  perYear : Option (List (Int × Nat))
deriving DecidableEq, Repr

/-- main: ensure the dataset, load and clean it, explode genres,
compute the three aggregates, overwrite the four output tables.  The
none branch of the read is unreachable after ensure_dataset.  (Named
main in the source; Lean reserves that name for executables.) -/
def main_run (fs : FS) : Except String FS :=
  match ensure_dataset fs.movies with
  | none => .error "FileNotFoundError"
  | some m =>
    match load_and_clean m with
    | .error e => .error e
    | .ok clean =>
      .ok { movies := some m
            details := some clean
            genreAvg := some (chart_avg_rating_by_genre (explode_genres clean))
            topTable := some (top5 clean)
            perYear := some (chart_movies_per_year clean) }

unseal Rat.add Rat.mul Rat.inv

/-! ## Helper lemmas -/

lemma load_and_clean_ok {rows : List RawRow} {out : List MovieRow}
    (h : load_and_clean rows = .ok out) : out = rows.filterMap cleanRow := by
  unfold load_and_clean at h
  by_cases hc : (rows.map parseRow).all yearCastOk = true
  · simp only [hc, if_true] at h
    cases h
    rw [List.filterMap_map, List.map_filterMap]
    rfl
  · simp only [hc, if_false] at h
    cases h

lemma load_and_clean_error_iff (rows : List RawRow) :
    (∃ e, load_and_clean rows = .error e) ↔
      ¬ ((rows.map parseRow).all yearCastOk = true) := by
  unfold load_and_clean
  by_cases hc : (rows.map parseRow).all yearCastOk = true
  · simp [hc]
  · simp [hc]

lemma cleanRow_eq_some {r : RawRow} {m : MovieRow} (h : cleanRow r = some m) :
    ∃ q y : Rat, r.rating.bind toNumeric = some q ∧ r.year.bind toNumeric = some y ∧
      m.rating = clip01 q := by
  unfold cleanRow dropnaRow at h
  rcases hq : (parseRow r).rating with _ | q <;> rw [hq] at h
  · simp at h
  · rcases hy : (parseRow r).yearNum with _ | y <;> rw [hy] at h
    · simp at h
    · refine ⟨q, y, hq, hy, ?_⟩
      cases h
      rfl

lemma cleanRow_none_of_year {r : RawRow} (h : r.year.bind toNumeric = none) :
    cleanRow r = none := by
  unfold cleanRow dropnaRow
  have hy : (parseRow r).yearNum = none := h
  rw [hy]
  rcases (parseRow r).rating with _ | q <;> rfl

lemma clip01_nonneg (q : Rat) : 0 ≤ clip01 q :=
  le_min (le_max_right q 0) (by norm_num)

lemma clip01_le_ten (q : Rat) : clip01 q ≤ 10 :=
  min_le_right _ _

lemma clip01_of_neg {q : Rat} (h : q < 0) : clip01 q = 0 := by
  unfold clip01
  rw [max_eq_right h.le, min_eq_left (by norm_num)]

lemma clip01_of_gt_ten {q : Rat} (h : 10 < q) : clip01 q = 10 := by
  unfold clip01
  rw [max_eq_left (le_trans (by norm_num) h.le), min_eq_right h.le]

lemma clip01_of_mem {q : Rat} (h0 : 0 ≤ q) (h10 : q ≤ 10) : clip01 q = q := by
  unfold clip01
  rw [max_eq_left h0, min_eq_left h10]

lemma sort_values_asc_perm {α β : Type} [LinearOrder β] (key : α → β) (l : List α) :
    (sort_values_asc key l).Perm l :=
  List.perm_insertionSort _ l

lemma sort_values_desc_perm {α β : Type} [LinearOrder β] (key : α → β) (l : List α) :
    (sort_values_desc key l).Perm l :=
  (List.reverse_perm _).trans ((sort_values_asc_perm key l.reverse).trans (List.reverse_perm l))

lemma sort_values_asc_sorted {α β : Type} [LinearOrder β] (key : α → β) (l : List α) :
    (sort_values_asc key l).Pairwise (fun a b => key a ≤ key b) :=
  List.sorted_insertionSort (keyLE key) l

lemma sum_map_add {α : Type} (f g : α → Nat) (l : List α) :
    (l.map (fun x => f x + g x)).sum = (l.map f).sum + (l.map g).sum := by
  induction l with
  | nil => rfl
  | cons a l ih => simp [ih]; omega

lemma sum_map_indicator_of_not_mem {β : Type} [DecidableEq β] {b : β} {ks : List β}
    (h : b ∉ ks) : (ks.map (fun k => if b = k then 1 else 0)).sum = 0 := by
  induction ks with
  | nil => rfl
  | cons k ks ih =>
    have hbk : b ≠ k := fun hbk => h (hbk ▸ List.mem_cons_self k ks)
    simp only [List.map_cons, List.sum_cons, if_neg hbk]
    rw [ih (fun hm => h (List.mem_cons_of_mem k hm))]

lemma sum_map_indicator_of_mem {β : Type} [DecidableEq β] {b : β} {ks : List β}
    (hnd : ks.Nodup) (hmem : b ∈ ks) :
    (ks.map (fun k => if b = k then 1 else 0)).sum = 1 := by
  induction ks with
  | nil => cases hmem
  | cons k ks ih =>
    rcases List.nodup_cons.mp hnd with ⟨hk, hnd2⟩
    simp only [List.map_cons, List.sum_cons]
    by_cases hbk : b = k
    · subst hbk
      rw [if_pos rfl, sum_map_indicator_of_not_mem hk]
    · rcases List.mem_cons.mp hmem with h | h
      · exact absurd h hbk
      · rw [if_neg hbk, ih hnd2 h]

lemma sum_map_countP {α β : Type} [DecidableEq β] (f : α → β) (t : List α)
    (ks : List β) (hnd : ks.Nodup) (hcov : ∀ a ∈ t, f a ∈ ks) :
    (ks.map (fun k => t.countP (fun a => f a == k))).sum = t.length := by
  induction t with
  | nil => simp [List.countP_nil]
  | cons a t ih =>
    have hstep : ∀ k : β, (a :: t).countP (fun x => f x == k) =
        t.countP (fun x => f x == k) + (if f a = k then 1 else 0) := by
      intro k
      rw [List.countP_cons]
      by_cases hfa : f a = k
      · simp [hfa]
      · simp [hfa]
    have hmapeq : ks.map (fun k => (a :: t).countP (fun x => f x == k)) =
        ks.map (fun k => t.countP (fun x => f x == k) + (if f a = k then 1 else 0)) :=
      List.map_congr_left (fun k _ => hstep k)
    rw [hmapeq, sum_map_add, ih (fun x hx => hcov x (List.mem_cons_of_mem a hx)),
      sum_map_indicator_of_mem hnd (hcov a (List.mem_cons_self a t)), List.length_cons]

/-! ## Claim theorems -/

/-- Claim C1, evaluation at the failing input.  A row whose Title cell
is missing is NOT dropped by load_and_clean: astype(str) turns the
missing value into the literal string "nan" before dropna runs, so the
row survives with that placeholder title (same for Genre).  Rows with
a non-numeric Rating or Year are dropped as claimed. -/
theorem missing_title_row_kept :
    load_and_clean [⟨none, some "Drama", some "7.0", some "2000"⟩] =
      .ok [⟨"nan", "Drama", 7, 2000⟩] ∧
    load_and_clean [⟨some "A", none, some "7.0", some "2000"⟩] =
      .ok [⟨"A", "nan", 7, 2000⟩] ∧
    load_and_clean [⟨some "A", some "Drama", some "N/A", some "2000"⟩] = .ok [] ∧
    load_and_clean [⟨some "A", some "Drama", some "7.0", some "x"⟩] = .ok [] := by
  decide

/-- Claim C2: every row of the cleaned table has its Rating equal to
the clamp of the parsed value, hence within the closed interval
zero to ten; the clamp sends values below zero to zero, values above
ten to ten, and leaves values inside the interval unchanged. -/
theorem ratings_clamped (rows : List RawRow) (out : List MovieRow)
    (h : load_and_clean rows = .ok out) :
    (∀ m ∈ out, (0 ≤ m.rating ∧ m.rating ≤ 10) ∧
      ∃ r ∈ rows, ∃ q : Rat, r.rating.bind toNumeric = some q ∧ m.rating = clip01 q) ∧
    (∀ q : Rat, q < 0 → clip01 q = 0) ∧
    (∀ q : Rat, 10 < q → clip01 q = 10) ∧
    (∀ q : Rat, 0 ≤ q → q ≤ 10 → clip01 q = q) := by
  refine ⟨?_, fun q hq => clip01_of_neg hq, fun q hq => clip01_of_gt_ten hq,
    fun q h0 h10 => clip01_of_mem h0 h10⟩
  intro m hm
  rw [load_and_clean_ok h] at hm
  rcases List.mem_filterMap.mp hm with ⟨r, hr, hcr⟩
  rcases cleanRow_eq_some hcr with ⟨q, y, hq, _, hclip⟩
  exact ⟨⟨hclip ▸ clip01_nonneg q, hclip ▸ clip01_le_ten q⟩, r, hr, q, hq, hclip⟩

/-- Input used by the witness of claim C2: a rating above ten and one
below zero. -/
def rowsC2 : List RawRow :=
  [⟨some "A", some "Drama", some "15", some "2000"⟩,
   ⟨some "B", some "Drama", some "-3.5", some "2001"⟩]

/-- Cleaned table of rowsC2: both ratings clamped. -/
def outC2 : List MovieRow :=
  [⟨"A", "Drama", 10, 2000⟩, ⟨"B", "Drama", 0, 2001⟩]

/-- Witness for claim C2 at a concrete input: the row whose rating 15
was clamped to 10 satisfies the bounds and the clamp equation. -/
theorem ratings_clamped_witness :
    (0 ≤ (MovieRow.mk "A" "Drama" 10 2000).rating ∧
      (MovieRow.mk "A" "Drama" 10 2000).rating ≤ 10) ∧
    ∃ r ∈ rowsC2, ∃ q : Rat, r.rating.bind toNumeric = some q ∧
      (MovieRow.mk "A" "Drama" 10 2000).rating = clip01 q :=
  (ratings_clamped rowsC2 outC2 (by decide)).1 (MovieRow.mk "A" "Drama" 10 2000) (by decide)

/-- Counterexample to claim C5: well-formed rows whose Year cell
parses as a number that the Int64 cast cannot safely take make
load_and_clean raise instead of dropping the row: a non-integral
value, a non-integral value in exponent notation, an integral value
above the int64 range, an infinity. -/
theorem fractional_year_errors :
    load_and_clean [⟨some "A", some "Drama", some "5", some "2010.5"⟩] =
      .error "cannot safely cast non-equivalent float64 to int64" ∧
    load_and_clean [⟨some "A", some "Drama", some "5", some "2.5e0"⟩] =
      .error "cannot safely cast non-equivalent float64 to int64" ∧
    load_and_clean [⟨some "A", some "Drama", some "5", some "99999999999999999999"⟩] =
      .error "cannot safely cast non-equivalent float64 to int64" ∧
    load_and_clean [⟨some "A", some "Drama", some "5", some "inf"⟩] =
      .error "cannot safely cast non-equivalent float64 to int64" := by
  decide

/-- Claim C5 as amended: when load_and_clean succeeds it is the
order-preserving row filter cleanRow, under which a row whose Year
cell does not parse as a number is dropped rather than an error; the
cleaner errs exactly when some row's Year cell fails the safe Int64
cast, that is, parses to an infinity or to a finite number that is
non-integral or outside the int64 range (yearCastOk). -/
theorem year_unparsable_dropped (rows : List RawRow) (out : List MovieRow)
    (h : load_and_clean rows = .ok out) :
    out = rows.filterMap cleanRow ∧
    (∀ r : RawRow, r.year.bind toNumeric = none →
      (r.year.map isInf).getD false = false → cleanRow r = none) ∧
    (∀ rows' : List RawRow,
      (∃ e, load_and_clean rows' = .error e) ↔
        ∃ p ∈ rows'.map parseRow, yearCastOk p = false) := by
  refine ⟨load_and_clean_ok h, fun r hr _ => cleanRow_none_of_year hr, fun rows' => ?_⟩
  rw [load_and_clean_error_iff]
  simp [List.all_eq_true]

/-- Input used by the witness of claim C5: a Year that is not a
number. -/
def rowsC5 : List RawRow :=
  [⟨some "A", some "Drama", some "7", some "abc"⟩]

/-- Witness for claim C5: the row with unparsable Year is dropped
without an error, so the cleaned table is empty. -/
theorem year_unparsable_dropped_witness :
    ([] : List MovieRow) = rowsC5.filterMap cleanRow :=
  (year_unparsable_dropped rowsC5 [] (by decide)).1

/-- Claim C10: cleaning is the per-row filter cleanRow applied in
input order, so the retained rows keep their original relative order,
both in the value load_and_clean returns and in the Details table that
main writes. -/
theorem clean_preserves_input_order (rows : List RawRow) (out : List MovieRow)
    (h : load_and_clean rows = .ok out) :
    out = rows.filterMap cleanRow ∧
    (∀ fs fs' : FS, main_run fs = .ok fs' →
      ∃ m, fs'.movies = some m ∧ fs'.details = some (m.filterMap cleanRow)) := by
  refine ⟨load_and_clean_ok h, ?_⟩
  intro fs fs' hrun
  unfold main_run at hrun
  split at hrun
  · cases hrun
  · split at hrun
    · cases hrun
    · rename_i m hens exc clean hl
      injection hrun with h2
      subst h2
      exact ⟨m, rfl, by rw [← load_and_clean_ok hl]⟩

/-- Input used by the witness of claim C10: the middle row has a
non-numeric Rating and is dropped; the two survivors keep their
relative order. -/
def rowsC10 : List RawRow :=
  [⟨some "A", some "Drama", some "5", some "2000"⟩,
   ⟨some "B", some "Drama", some "N/A", some "2001"⟩,
   ⟨some "C", some "Drama", some "6", some "2002"⟩]

/-- Witness for claim C10 at a concrete input: survivors in input
order. -/
theorem clean_preserves_input_order_witness :
    [MovieRow.mk "A" "Drama" 5 2000, MovieRow.mk "C" "Drama" 6 2002] =
      rowsC10.filterMap cleanRow :=
  (clean_preserves_input_order rowsC10
    [MovieRow.mk "A" "Drama" 5 2000, MovieRow.mk "C" "Drama" 6 2002] (by decide)).1

/-- Claim C8: ensure_dataset leaves an existing file unchanged and
fills an absent one with the fixed sample table of exactly twenty
records. -/
theorem ensure_dataset_frame :
    (∀ t : List RawRow, ensure_dataset (some t) = some t) ∧
    ensure_dataset none = some sample_rows ∧
    sample_rows.length = 20 :=
  ⟨fun _ => rfl, rfl, rfl⟩

/-- Witness for claim C8: an existing one-row file is untouched. -/
theorem ensure_dataset_frame_witness :
    ensure_dataset (some [⟨some "X", some "Drama", some "5", some "2000"⟩]) =
      some [⟨some "X", some "Drama", some "5", some "2000"⟩] :=
  ensure_dataset_frame.1 [⟨some "X", some "Drama", some "5", some "2000"⟩]

/-- Claim C4: every exploded record keeps the title, rating and year
of an originating cleaned row and carries one of its non-empty trimmed
genre tokens; there is exactly one exploded record per token (the
length identity); and the genre string of the form Drama-comma-space
yields the single token Drama. -/
theorem explode_correct (t : List MovieRow) :
    (∀ e ∈ explode_genres t, e.genre ≠ "" ∧
      ∃ m ∈ t, e.title = m.title ∧ e.rating = m.rating ∧ e.year = m.year ∧
        e.genre ∈ splitGenres m.genre) ∧
    (explode_genres t).length = (t.map (fun m => (splitGenres m.genre).length)).sum ∧
    splitGenres "Drama, " = ["Drama"] := by
  refine ⟨?_, ?_, by decide⟩
  · intro e he
    unfold explode_genres at he
    rw [List.mem_flatten] at he
    rcases he with ⟨l, hl, hel⟩
    rw [List.mem_map] at hl
    rcases hl with ⟨m, hm, rfl⟩
    rw [List.mem_map] at hel
    rcases hel with ⟨g, hg, rfl⟩
    refine ⟨?_, m, hm, rfl, rfl, rfl, hg⟩
    unfold splitGenres at hg
    exact of_decide_eq_true (List.mem_filter.mp hg).2
  · unfold explode_genres
    rw [List.length_flatten, List.map_map]
    exact congrArg List.sum (List.map_congr_left (fun m _ => by simp [Function.comp]))

/-- Input used by the witness of claim C4, the end-to-end example of
the spec: one record with genre string Action-comma-space-Drama. -/
def tC4 : List MovieRow :=
  [⟨"Test", "Action, Drama", 15 / 2, 2020⟩]

/-- Witness for claim C4: the spec's end-to-end record explodes into
exactly two records, one per genre token. -/
theorem explode_correct_witness :
    (explode_genres tC4).length = (tC4.map (fun m => (splitGenres m.genre).length)).sum :=
  (explode_correct tC4).2.1

/-- Claim C6: the Genre Aggregate has exactly one row per distinct
genre token of the exploded records (its key column is a permutation
of the deduplicated token list), each row holds the arithmetic mean of
the ratings bearing that genre over a non-empty group, and the rows
are ordered by non-increasing mean rating. -/
theorem genre_aggregate_correct (t : List MovieRow) :
    ((chart_avg_rating_by_genre (explode_genres t)).map Prod.fst).Perm
      ((explode_genres t).map (fun e => e.genre)).dedup ∧
    (∀ p ∈ chart_avg_rating_by_genre (explode_genres t),
      0 < (ratingsOf (explode_genres t) p.1).length ∧
      p.2 = meanRat (ratingsOf (explode_genres t) p.1)) ∧
    ((chart_avg_rating_by_genre (explode_genres t)).map Prod.snd).Pairwise
      (fun a b => b ≤ a) := by
  set exp := explode_genres t with hexp
  set dd := (exp.map (fun e => e.genre)).dedup with hdd
  set rows := (sort_values_asc strKey dd).map (fun g => (g, meanRat (ratingsOf exp g)))
    with hrows
  have hga : chart_avg_rating_by_genre exp = sort_values_desc Prod.snd rows := rfl
  have hperm : (chart_avg_rating_by_genre exp).Perm rows := by
    rw [hga]; exact sort_values_desc_perm Prod.snd rows
  have hkeys : (sort_values_asc strKey dd).Perm dd := sort_values_asc_perm strKey dd
  refine ⟨?_, ?_, ?_⟩
  · have h1 := hperm.map Prod.fst
    have h2 : rows.map Prod.fst = sort_values_asc strKey dd := by
      rw [hrows, List.map_map]; exact List.map_id _
    rw [h2] at h1
    exact h1.trans hkeys
  · intro p hp
    have hp2 : p ∈ rows := hperm.mem_iff.mp hp
    rw [hrows, List.mem_map] at hp2
    rcases hp2 with ⟨g, hg, rfl⟩
    refine ⟨?_, rfl⟩
    have hgd : g ∈ dd := hkeys.mem_iff.mp hg
    rw [hdd, List.mem_dedup, List.mem_map] at hgd
    rcases hgd with ⟨e, he, rfl⟩
    unfold ratingsOf
    rw [List.length_map]
    refine List.length_pos.mpr (List.ne_nil_of_mem (List.mem_filter.mpr ⟨he, ?_⟩))
    simp
  · rw [hga]
    unfold sort_values_desc
    rw [List.map_reverse, List.pairwise_reverse, List.pairwise_map]
    exact sort_values_asc_sorted Prod.snd rows.reverse

/-- Input used by the witness of claim C6. -/
def tC6 : List MovieRow :=
  [⟨"Test", "Action, Drama", 15 / 2, 2020⟩, ⟨"Other", "Drama", 9, 2021⟩]

/-- Witness for claim C6: one aggregate row per distinct genre token
of the concrete exploded table. -/
theorem genre_aggregate_correct_witness :
    ((chart_avg_rating_by_genre (explode_genres tC6)).map Prod.fst).Perm
      ((explode_genres tC6).map (fun e => e.genre)).dedup :=
  (genre_aggregate_correct tC6).1

/-- Claim C7: the Year Aggregate has one row per distinct Year (key
column a permutation of the deduplicated year list), each Count is the
number of cleaned rows with that Year, rows are in ascending Year
order, and the Counts sum to the number of cleaned rows. -/
theorem year_aggregate_correct (t : List MovieRow) :
    ((chart_movies_per_year t).map Prod.fst).Perm ((t.map (fun m => m.year)).dedup) ∧
    (∀ p ∈ chart_movies_per_year t,
      p.2 = (t.filter (fun m => m.year == p.1)).length) ∧
    ((chart_movies_per_year t).map Prod.fst).Pairwise (fun a b => a ≤ b) ∧
    ((chart_movies_per_year t).map Prod.snd).sum = t.length := by
  set dd := (t.map (fun m => m.year)).dedup with hdd
  set rows := (sort_values_asc id dd).map (fun y => (y, t.countP (fun m => m.year == y)))
    with hrows
  have hpy : chart_movies_per_year t = sort_values_asc Prod.fst rows := rfl
  have hperm : (chart_movies_per_year t).Perm rows := by
    rw [hpy]; exact sort_values_asc_perm Prod.fst rows
  have hkeys : (sort_values_asc (id : Int → Int) dd).Perm dd := sort_values_asc_perm id dd
  refine ⟨?_, ?_, ?_, ?_⟩
  · have h1 := hperm.map Prod.fst
    have h2 : rows.map Prod.fst = sort_values_asc id dd := by
      rw [hrows, List.map_map]; exact List.map_id _
    rw [h2] at h1
    exact h1.trans hkeys
  · intro p hp
    have hp2 : p ∈ rows := hperm.mem_iff.mp hp
    rw [hrows, List.mem_map] at hp2
    rcases hp2 with ⟨y, hy, rfl⟩
    exact List.countP_eq_length_filter _ _
  · rw [hpy]
    rw [List.pairwise_map]
    exact sort_values_asc_sorted Prod.fst rows
  · have h1 : ((chart_movies_per_year t).map Prod.snd).sum = (rows.map Prod.snd).sum :=
      (hperm.map Prod.snd).sum_eq
    have h2 : rows.map Prod.snd =
        (sort_values_asc id dd).map (fun y => t.countP (fun m => m.year == y)) := by
      rw [hrows, List.map_map]; rfl
    have h3 : ((sort_values_asc id dd).map
          (fun y => t.countP (fun m => m.year == y))).sum =
        (dd.map (fun y => t.countP (fun m => m.year == y))).sum :=
      (hkeys.map (fun y => t.countP (fun m => m.year == y))).sum_eq
    rw [h1, h2, h3]
    exact sum_map_countP (fun m : MovieRow => m.year) t dd (List.nodup_dedup _)
      (fun m hm => by rw [hdd, List.mem_dedup]; exact List.mem_map_of_mem _ hm)

/-- Input used by the witness of claim C7. -/
def tC7 : List MovieRow :=
  [⟨"A", "Drama", 5, 2001⟩, ⟨"B", "Drama", 6, 2000⟩, ⟨"C", "Drama", 7, 2001⟩]

/-- Witness for claim C7: the counts of the concrete Year Aggregate
sum to the number of cleaned rows. -/
theorem year_aggregate_correct_witness :
    ((chart_movies_per_year tC7).map Prod.snd).sum = tC7.length :=
  (year_aggregate_correct tC7).2.2.2

/-- Claim C9: the pipeline is idempotent: a successful run maps the
resulting file state to itself, so a second run on the unchanged input
file rewrites every output table with identical contents. -/
theorem pipeline_idempotent (fs fs₁ : FS) (h : main_run fs = .ok fs₁) :
    main_run fs₁ = .ok fs₁ := by
  unfold main_run at h
  split at h
  · cases h
  · split at h
    · cases h
    · rename_i m hens exc clean hl
      injection h with h2
      subst h2
      unfold main_run
      simp only [ensure_dataset, hl]

/-- Input file state used by the witness of claim C9. -/
def fsC9 : FS :=
  ⟨some [⟨some "A", some "Drama", some "5.0", some "2000"⟩], none, none, none, none⟩

/-- File state after one run on fsC9. -/
def fsC9' : FS :=
  ⟨some [⟨some "A", some "Drama", some "5.0", some "2000"⟩],
   some [⟨"A", "Drama", 5, 2000⟩], some [("Drama", 5)], some [("A", 5, 2000)],
   some [((2000 : Int), 1)]⟩

/-- Witness for claim C9: rerunning on the state a run produced
returns that state unchanged. -/
theorem pipeline_idempotent_witness : main_run fsC9' = .ok fsC9' :=
  pipeline_idempotent fsC9 fsC9' (by decide)
